import Mathlib

/-!
A verification development for the cloudtrailbeat ingestion pipeline
(`beater/ctbeat.go`, `config/config.go`).

The Go source is shallowly embedded: the JSON wire format handled by
`encoding/json` is modelled by an executable JSON parser and by marshal
functions mirroring the encoder's output byte-for-byte (struct field order,
`omitempty`, and the encoder's escaping rules); the SQS / S3 / libbeat
collaborators are modelled as explicit oracle functions, and the calls the
code issues against them are recorded in traces.
-/

namespace Cloudtrailbeat

/-- The JSON data model produced by decoding a wire string.  Number literals
are kept as their lexeme: none of the decoded structures carries a numeric
field, so no numeric interpretation is needed. -/
inductive Json where
  | null
  | bool (b : Bool)
  | num (lexeme : String)
  | str (s : String)
  | arr (elems : List Json)
  | obj (fields : List (String × Json))

/-- Whitespace characters accepted between JSON tokens. -/
def isWs (c : Char) : Bool :=
  c = ' ' || c = '\t' || c = '\n' || c = '\x0d'

/-- Skips leading JSON whitespace. -/
def skipWs : List Char → List Char
  | [] => []
  | c :: r => if isWs c then skipWs r else c :: r

/-- Value of one hexadecimal digit, accepting both letter cases. -/
def hexVal (c : Char) : Option Nat :=
  if '0' ≤ c ∧ c ≤ '9' then some (c.toNat - '0'.toNat)
  else if 'a' ≤ c ∧ c ≤ 'f' then some (c.toNat - 'a'.toNat + 10)
  else if 'A' ≤ c ∧ c ≤ 'F' then some (c.toNat - 'A'.toNat + 10)
  else none

/-- Value of a four-digit hexadecimal escape. -/
def hex4 (a b c d : Char) : Option Nat :=
  match hexVal a, hexVal b, hexVal c, hexVal d with
  | some x, some y, some z, some w => some (((x * 16 + y) * 16 + z) * 16 + w)
  | _, _, _, _ => none

/-- Code points reserved for UTF-16 surrogates. -/
def isSurrogate (n : Nat) : Bool :=
  decide (0xD800 ≤ n) && decide (n < 0xE000)

def isHighSurrogate (n : Nat) : Bool :=
  decide (0xD800 ≤ n) && decide (n < 0xDC00)

def isLowSurrogate (n : Nat) : Bool :=
  decide (0xDC00 ≤ n) && decide (n < 0xE000)

/-- Combines a UTF-16 surrogate pair into one code point. -/
def surrogatePair (hi lo : Nat) : Nat :=
  0x10000 + (hi - 0xD800) * 0x400 + (lo - 0xDC00)

/-- The Unicode replacement character, substituted for unpaired surrogates. -/
def replacementChar : Char := Char.ofNat 0xFFFD

/-- Translation of one simple backslash escape. -/
def unescapeSimple (c : Char) : Option Char :=
  if c = '"' then some '"'
  else if c = '\\' then some '\\'
  else if c = '/' then some '/'
  else if c = 'b' then some '\x08'
  else if c = 'f' then some '\x0c'
  else if c = 'n' then some '\n'
  else if c = 'r' then some '\x0d'
  else if c = 't' then some '\t'
  else none

/-- Reads the body of a JSON string literal after its opening quote, up to and
including the closing quote, decoding escapes the way `encoding/json` does.
The first argument carries a surrogate code point read from an immediately
preceding `u`-escape and not yet resolved: a following `u`-escape holding the
matching half combines into one code point, anything else degrades the
pending half to the replacement character, after which the following text is
read normally.  A raw control character is a syntax error. -/
def parseStringBody : Option Nat → List Char → Option (List Char × List Char)
  | some n, '\\' :: 'u' :: a :: b :: c :: d :: r2 =>
    match hex4 a b c d with
    | none => none
    | some n2 =>
      if isHighSurrogate n && isLowSurrogate n2 then
        (fun p => (Char.ofNat (surrogatePair n n2) :: p.1, p.2)) <$>
          parseStringBody none r2
      else if isSurrogate n2 then
        (fun p => (replacementChar :: p.1, p.2)) <$> parseStringBody (some n2) r2
      else
        (fun p => (replacementChar :: Char.ofNat n2 :: p.1, p.2)) <$>
          parseStringBody none r2
  | some _, '"' :: r => some ([replacementChar], r)
  | some _, '\\' :: e :: r1 =>
    if e = 'u' then none
    else
      match unescapeSimple e with
      | some ch => (fun p => (replacementChar :: ch :: p.1, p.2)) <$>
          parseStringBody none r1
      | none => none
  | some _, c :: r =>
    if c.toNat < 0x20 then none
    else (fun p => (replacementChar :: c :: p.1, p.2)) <$> parseStringBody none r
  | some _, [] => none
  | none, [] => none
  | none, c :: r =>
    if c = '"' then some ([], r)
    else if c = '\\' then
      match r with
      | 'u' :: a :: b :: c2 :: d :: r1 =>
        match hex4 a b c2 d with
        | none => none
        | some n =>
          if isSurrogate n then parseStringBody (some n) r1
          else (fun p => (Char.ofNat n :: p.1, p.2)) <$> parseStringBody none r1
      | e :: r1 =>
        match unescapeSimple e with
        | some ch => (fun p => (ch :: p.1, p.2)) <$> parseStringBody none r1
        | none => none
      | [] => none
    else if c.toNat < 0x20 then none
    else (fun p => (c :: p.1, p.2)) <$> parseStringBody none r

def isDigit (c : Char) : Bool := '0' ≤ c && c ≤ '9'

/-- Longest leading run of decimal digits. -/
def takeDigits : List Char → (List Char × List Char)
  | [] => ([], [])
  | c :: r =>
    if isDigit c then
      let p := takeDigits r
      (c :: p.1, p.2)
    else ([], c :: r)

/-- Reads the integer part of a number literal: `0`, or a nonzero digit
followed by more digits. -/
def parseIntPart : List Char → Option (List Char × List Char)
  | [] => none
  | c :: r =>
    if c = '0' then some ([c], r)
    else if isDigit c then
      let p := takeDigits r
      some (c :: p.1, p.2)
    else none

/-- Reads an optional fraction part `.digits`. -/
def parseFracPart (l : List Char) : Option (List Char × List Char) :=
  match l with
  | '.' :: r =>
    match takeDigits r with
    | ([], _) => none
    | (ds, r1) => some ('.' :: ds, r1)
  | _ => some ([], l)

/-- Reads an optional exponent part `e[+-]digits`. -/
def parseExpPart (l : List Char) : Option (List Char × List Char) :=
  match l with
  | c :: r =>
    if c = 'e' || c = 'E' then
      match r with
      | s :: r1 =>
        if s = '+' || s = '-' then
          match takeDigits r1 with
          | ([], _) => none
          | (ds, r2) => some (c :: s :: ds, r2)
        else
          match takeDigits r with
          | ([], _) => none
          | (ds, r2) => some (c :: ds, r2)
      | [] => none
    else some ([], l)
  | [] => some ([], l)

/-- Reads a JSON number literal, keeping its lexeme. -/
def parseNumber (l : List Char) : Option (Json × List Char) :=
  let (sign, l1) :=
    match l with
    | '-' :: r => (['-'], r)
    | _ => (([] : List Char), l)
  match parseIntPart l1 with
  | none => none
  | some (ip, l2) =>
    match parseFracPart l2 with
    | none => none
    | some (fp, l3) =>
      match parseExpPart l3 with
      | none => none
      | some (ep, l4) => some (.num (String.mk (sign ++ ip ++ fp ++ ep)), l4)

/-- What the parser is currently reading: one value, the elements of a
nonempty array (after its opening bracket), or the members of a nonempty
object (after its opening brace).  The three alternations are folded into
one function so the recursion is structural in the fuel; the element and
member modes return their collection already wrapped as `Json.arr` /
`Json.obj`. -/
inductive PMode where
  | value
  | arrayElems
  | objFields

/-- Reads one JSON production.  The fuel argument bounds value-nesting
recursion; every recursive step consumes at least one input character, so the
entry point supplies `length + 1` fuel. -/
def parseCore : Nat → PMode → List Char → Option (Json × List Char)
  | 0, _, _ => none
  | fuel + 1, .value, l =>
    match skipWs l with
    | [] => none
    | c :: r =>
      if c = '"' then
        (fun p => (Json.str (String.mk p.1), p.2)) <$> parseStringBody none r
      else if c = '{' then
        match skipWs r with
        | '}' :: r1 => some (.obj [], r1)
        | l1 => parseCore fuel .objFields l1
      else if c = '[' then
        match skipWs r with
        | ']' :: r1 => some (.arr [], r1)
        | l1 => parseCore fuel .arrayElems l1
      else if c = 'n' then
        match r with
        | 'u' :: 'l' :: 'l' :: r1 => some (.null, r1)
        | _ => none
      else if c = 't' then
        match r with
        | 'r' :: 'u' :: 'e' :: r1 => some (.bool true, r1)
        | _ => none
      else if c = 'f' then
        match r with
        | 'a' :: 'l' :: 's' :: 'e' :: r1 => some (.bool false, r1)
        | _ => none
      else if c = '-' || isDigit c then parseNumber (c :: r)
      else none
  | fuel + 1, .arrayElems, l =>
    match parseCore fuel .value l with
    | none => none
    | some (v, r) =>
      match skipWs r with
      | ',' :: r1 =>
        match parseCore fuel .arrayElems r1 with
        | some (.arr es, r2) => some (.arr (v :: es), r2)
        | _ => none
      | ']' :: r1 => some (.arr [v], r1)
      | _ => none
  | fuel + 1, .objFields, l =>
    match skipWs l with
    | '"' :: r =>
      match parseStringBody none r with
      | none => none
      | some (k, r1) =>
        match skipWs r1 with
        | ':' :: r2 =>
          match parseCore fuel .value r2 with
          | none => none
          | some (v, r3) =>
            match skipWs r3 with
            | ',' :: r4 =>
              match parseCore fuel .objFields r4 with
              | some (.obj fs, r5) => some (.obj ((String.mk k, v) :: fs), r5)
              | _ => none
            | '}' :: r4 => some (.obj [(String.mk k, v)], r4)
            | _ => none
        | _ => none
    | _ => none

/-- Parses a complete JSON document: one value with only whitespace after it,
as `json.Unmarshal` requires. -/
def Json.parse (s : String) : Except String Json :=
  match parseCore (s.data.length + 1) .value s.data with
  | some (v, rest) =>
    match skipWs rest with
    | [] => .ok v
    | _ => .error "invalid character after top-level value"
  | none => .error "invalid JSON input"

/-! Rendering: the byte-for-byte output of `json.Marshal` for the values the
program encodes, including the encoder's escaping rules (HTML-unsafe bytes
and the two line separators become `u`-escapes). -/

/-- Lowercase hexadecimal digit. -/
def hexDigitLower (n : Nat) : Char :=
  if n < 10 then Char.ofNat ('0'.toNat + n) else Char.ofNat ('a'.toNat + n - 10)

/-- The expansion `json.Marshal` gives one character inside a string
literal. -/
def escapeChar (c : Char) : List Char :=
  if c = '"' then ['\\', '"']
  else if c = '\\' then ['\\', '\\']
  else if c = '\n' then ['\\', 'n']
  else if c = '\x0d' then ['\\', 'r']
  else if c = '\t' then ['\\', 't']
  else if c.toNat < 0x20 then
    ['\\', 'u', '0', '0', hexDigitLower (c.toNat / 16), hexDigitLower (c.toNat % 16)]
  else if c = '<' then ['\\', 'u', '0', '0', '3', 'c']
  else if c = '>' then ['\\', 'u', '0', '0', '3', 'e']
  else if c = '&' then ['\\', 'u', '0', '0', '2', '6']
  else if c.toNat = 0x2028 then ['\\', 'u', '2', '0', '2', '8']
  else if c.toNat = 0x2029 then ['\\', 'u', '2', '0', '2', '9']
  else [c]

/-- Escapes every character of a string body. -/
def escape : List Char → List Char
  | [] => []
  | c :: r => escapeChar c ++ escape r

/-- Rendering of a string as a JSON string literal. -/
def renderStr (s : String) : List Char :=
  '"' :: escape s.data ++ ['"']

/-- Rendering of the fields of a JSON object, comma separated. -/
def renderFields : List (String × List Char) → List Char
  | [] => []
  | [(k, v)] => renderStr k ++ ':' :: v
  | (k, v) :: rest => renderStr k ++ ':' :: v ++ ',' :: renderFields rest

/-- Rendering of a JSON object from pre-rendered field values. -/
def renderObj (fs : List (String × List Char)) : List Char :=
  '{' :: renderFields fs ++ ['}']

/-- Rendering of the elements of a `[]string` value. -/
def renderStrElems : List String → List Char
  | [] => []
  | [s] => renderStr s
  | s :: rest => renderStr s ++ ',' :: renderStrElems rest

/-- Rendering of a `[]string` field.  `json.Marshal` renders a nil slice as
`null`; the model cannot tell a nil slice from an empty one and renders the
empty list as `null`, which the program never encodes (the only marshalled
key list is the singleton built by `pushQueue`). -/
def renderStrList (l : List String) : List Char :=
  match l with
  | [] => "null".data
  | _ => '[' :: renderStrElems l ++ [']']

mutual

/-- Normal-form rendering of a decoded JSON value, used for the raw
request/response payload text (`json.RawMessage` keeps the original bytes;
the model keeps the parsed value and renders it back). -/
def renderJson : Json → List Char
  | .null => "null".data
  | .bool true => "true".data
  | .bool false => "false".data
  | .num s => s.data
  | .str s => renderStr s
  | .arr es => '[' :: renderElems es ++ [']']
  | .obj fs => '{' :: renderMembers fs ++ ['}']

/-- Renders array elements, comma separated. -/
def renderElems : List Json → List Char
  | [] => []
  | [e] => renderJson e
  | e :: es => renderJson e ++ ',' :: renderElems es

/-- Renders object members, comma separated. -/
def renderMembers : List (String × Json) → List Char
  | [] => []
  | [(k, v)] => renderStr k ++ ':' :: renderJson v
  | (k, v) :: fs => renderStr k ++ ':' :: renderJson v ++ ',' :: renderMembers fs

end

/-! The message structures of `beater/ctbeat.go` and the field-matching rules
of `json.Unmarshal`: a key selects a struct field by case-insensitive match
on the field's JSON name, a later duplicate key overwrites an earlier one, an
unknown key is ignored, and a `null` value leaves a field untouched. -/

/-- ASCII lowering, the case folding `encoding/json` applies to the pure
ASCII field names used here. -/
def toLowerAscii (c : Char) : Char :=
  if 'A' ≤ c ∧ c ≤ 'Z' then Char.ofNat (c.toNat + 32) else c

/-- Case-insensitive key comparison. -/
def eqFold (a b : String) : Bool :=
  a.data.map toLowerAscii == b.data.map toLowerAscii

/-- Decoding a JSON value into a `string` struct field: `null` keeps the
current value, anything other than a string is a type error. -/
def jsonToStringField (v : Json) (cur : String) : Except String String :=
  match v with
  | .null => .ok cur
  | .str s => .ok s
  | _ => .error "json: cannot unmarshal value into field of type string"

/-- Decoding one element of a `[]string` value. -/
def jsonToStringElem : Json → Except String String
  | .str s => .ok s
  | .null => .ok ""
  | _ => .error "json: cannot unmarshal value into element of type string"

/-- Decoding a JSON value into a `[]string` struct field. -/
def jsonToStringList (v : Json) (cur : List String) :
    Except String (List String) :=
  match v with
  | .null => .ok cur
  | .arr es => es.mapM jsonToStringElem
  | _ => .error "json: cannot unmarshal value into field of type []string"

/-- SQS message extracted from the raw SQS event body (`sqsMessage` in the
source; the Go field `Type` is named `msgType` because `Type` is reserved in
Lean). -/
structure sqsMessage where
  msgType : String := ""
  MessageID : String := ""
  TopicArn : String := ""
  Message : String := ""
  Timestamp : String := ""
  SignatureVersion : String := ""
  Signature : String := ""
  SigningCertURL : String := ""
  UnsubscribeURL : String := ""
deriving DecidableEq

/-- CloudTrail specific information extracted from `sqsMessage.Message`
(`ctMessage` in the source, with JSON tags `s3Bucket` and `s3ObjectKey`). -/
structure ctMessage where
  S3Bucket : String := ""
  S3ObjectKey : List String := []
  MessageID : String := ""
  ReceiptHandle : String := ""
deriving DecidableEq

/-- Applies one decoded object member to an `sqsMessage` under construction. -/
def setSqsField (m : sqsMessage) (kv : String × Json) : Except String sqsMessage :=
  if eqFold kv.1 "Type" then
    (jsonToStringField kv.2 m.msgType).map fun s => { m with msgType := s }
  else if eqFold kv.1 "MessageID" then
    (jsonToStringField kv.2 m.MessageID).map fun s => { m with MessageID := s }
  else if eqFold kv.1 "TopicArn" then
    (jsonToStringField kv.2 m.TopicArn).map fun s => { m with TopicArn := s }
  else if eqFold kv.1 "Message" then
    (jsonToStringField kv.2 m.Message).map fun s => { m with Message := s }
  else if eqFold kv.1 "Timestamp" then
    (jsonToStringField kv.2 m.Timestamp).map fun s => { m with Timestamp := s }
  else if eqFold kv.1 "SignatureVersion" then
    (jsonToStringField kv.2 m.SignatureVersion).map fun s => { m with SignatureVersion := s }
  else if eqFold kv.1 "Signature" then
    (jsonToStringField kv.2 m.Signature).map fun s => { m with Signature := s }
  else if eqFold kv.1 "SigningCertURL" then
    (jsonToStringField kv.2 m.SigningCertURL).map fun s => { m with SigningCertURL := s }
  else if eqFold kv.1 "UnsubscribeURL" then
    (jsonToStringField kv.2 m.UnsubscribeURL).map fun s => { m with UnsubscribeURL := s }
  else .ok m

/-- Applies one decoded object member to a `ctMessage` under construction. -/
def setCtField (m : ctMessage) (kv : String × Json) : Except String ctMessage :=
  if eqFold kv.1 "s3Bucket" then
    (jsonToStringField kv.2 m.S3Bucket).map fun s => { m with S3Bucket := s }
  else if eqFold kv.1 "s3ObjectKey" then
    (jsonToStringList kv.2 m.S3ObjectKey).map fun l => { m with S3ObjectKey := l }
  else if eqFold kv.1 "MessageID" then
    (jsonToStringField kv.2 m.MessageID).map fun s => { m with MessageID := s }
  else if eqFold kv.1 "ReceiptHandle" then
    (jsonToStringField kv.2 m.ReceiptHandle).map fun s => { m with ReceiptHandle := s }
  else .ok m

/-- Shape of `json.Unmarshal` into a struct: the document must be one object
(`null` is accepted and leaves the zero value), whose members are folded over
the field setter. -/
def unmarshalStruct {α : Type} (set : α → String × Json → Except String α)
    (zero : α) (s : String) : Except String α :=
  match Json.parse s with
  | .error e => .error e
  | .ok .null => .ok zero
  | .ok (.obj fs) => fs.foldlM set zero
  | .ok _ => .error "json: cannot unmarshal value into Go struct"

/-- Models `json.Unmarshal([]byte(*e.Body), &tmsg)`. -/
def unmarshalSqsMessage (s : String) : Except String sqsMessage :=
  unmarshalStruct setSqsField {} s

/-- Models `json.Unmarshal([]byte(tmsg.Message), &event)`. -/
def unmarshalCtMessage (s : String) : Except String ctMessage :=
  unmarshalStruct setCtField {} s

/-! The CloudTrail record structures (`cloudtrailLog`, `cloudtrailEvent`) and
their decoding.  `map[string]interface{}` fields keep the decoded member
list; `json.RawMessage` fields keep the decoded value (`none` standing for
the nil slice of an absent field). -/

/-- One CloudTrail record, matching `cloudtrailEvent` in the source. -/
structure cloudtrailEvent where
  EventTime : String := ""
  EventVersion : String := ""
  EventSource : String := ""
  UserIdentity : Option (List (String × Json)) := none
  EventName : String := ""
  AwsRegion : String := ""
  SourceIPAddress : String := ""
  UserAgent : String := ""
  ErrorCode : String := ""
  ErrorMessage : String := ""
  RequestID : String := ""
  EventID : String := ""
  EventType : String := ""
  APIVersion : String := ""
  RecipientAccountID : String := ""
  RequestParameters : Option Json := none
  ResponseElements : Option Json := none
  RawRequestParameters : String := ""
  RawResponseElements : String := ""

/-- The decoded contents of one CloudTrail log object. -/
structure cloudtrailLog where
  Records : List cloudtrailEvent := []

/-- Decoding a JSON value into a `map[string]interface{}` struct field. -/
def jsonToMapField (v : Json) (cur : Option (List (String × Json))) :
    Except String (Option (List (String × Json))) :=
  match v with
  | .null => .ok cur
  | .obj fs => .ok (some fs)
  | _ => .error "json: cannot unmarshal value into field of type map"

/-- Applies one decoded object member to a `cloudtrailEvent` under
construction.  A `json.RawMessage` field accepts any value. -/
def setEventField (m : cloudtrailEvent) (kv : String × Json) :
    Except String cloudtrailEvent :=
  if eqFold kv.1 "eventTime" then
    (jsonToStringField kv.2 m.EventTime).map fun s => { m with EventTime := s }
  else if eqFold kv.1 "eventVersion" then
    (jsonToStringField kv.2 m.EventVersion).map fun s => { m with EventVersion := s }
  else if eqFold kv.1 "eventSource" then
    (jsonToStringField kv.2 m.EventSource).map fun s => { m with EventSource := s }
  else if eqFold kv.1 "userIdentity" then
    (jsonToMapField kv.2 m.UserIdentity).map fun x => { m with UserIdentity := x }
  else if eqFold kv.1 "eventName" then
    (jsonToStringField kv.2 m.EventName).map fun s => { m with EventName := s }
  else if eqFold kv.1 "awsRegion" then
    (jsonToStringField kv.2 m.AwsRegion).map fun s => { m with AwsRegion := s }
  else if eqFold kv.1 "sourceIPAddress" then
    (jsonToStringField kv.2 m.SourceIPAddress).map fun s => { m with SourceIPAddress := s }
  else if eqFold kv.1 "userAgent" then
    (jsonToStringField kv.2 m.UserAgent).map fun s => { m with UserAgent := s }
  else if eqFold kv.1 "errorCode" then
    (jsonToStringField kv.2 m.ErrorCode).map fun s => { m with ErrorCode := s }
  else if eqFold kv.1 "errorMessage" then
    (jsonToStringField kv.2 m.ErrorMessage).map fun s => { m with ErrorMessage := s }
  else if eqFold kv.1 "requestID" then
    (jsonToStringField kv.2 m.RequestID).map fun s => { m with RequestID := s }
  else if eqFold kv.1 "eventID" then
    (jsonToStringField kv.2 m.EventID).map fun s => { m with EventID := s }
  else if eqFold kv.1 "eventType" then
    (jsonToStringField kv.2 m.EventType).map fun s => { m with EventType := s }
  else if eqFold kv.1 "apiVersion" then
    (jsonToStringField kv.2 m.APIVersion).map fun s => { m with APIVersion := s }
  else if eqFold kv.1 "recipientAccountID" then
    (jsonToStringField kv.2 m.RecipientAccountID).map fun s => { m with RecipientAccountID := s }
  else if eqFold kv.1 "requestParameters" then
    .ok { m with RequestParameters := some kv.2 }
  else if eqFold kv.1 "responseElements" then
    .ok { m with ResponseElements := some kv.2 }
  else if eqFold kv.1 "rawRequestParameters" then
    (jsonToStringField kv.2 m.RawRequestParameters).map fun s => { m with RawRequestParameters := s }
  else if eqFold kv.1 "rawResponseElements" then
    (jsonToStringField kv.2 m.RawResponseElements).map fun s => { m with RawResponseElements := s }
  else .ok m

/-- Decoding one element of the `Records` array. -/
def jsonToEvent : Json → Except String cloudtrailEvent
  | .null => .ok {}
  | .obj fs => fs.foldlM setEventField {}
  | _ => .error "json: cannot unmarshal value into element of type cloudtrailEvent"

/-- Applies one decoded object member to a `cloudtrailLog` under
construction. -/
def setLogField (m : cloudtrailLog) (kv : String × Json) :
    Except String cloudtrailLog :=
  if eqFold kv.1 "Records" then
    match kv.2 with
    | .null => .ok m
    | .arr es => (es.mapM jsonToEvent).map fun evs => { m with Records := evs }
    | _ => .error "json: cannot unmarshal value into field of type []cloudtrailEvent"
  else .ok m

/-- Models `json.Unmarshal(b, &events)` in `readLogfile`. -/
def unmarshalCloudtrailLog (s : String) : Except String cloudtrailLog :=
  unmarshalStruct setLogField {} s

/-! Wall-clock values and `time.Parse` against the fixed layout
`"2006-01-02T15:04:05Z"` (in which the trailing `Z` is a literal). -/

/-- The wall-clock fields `time.Parse` extracts under the fixed layout. -/
structure GoTime where
  year : Nat
  month : Nat
  day : Nat
  hour : Nat
  minute : Nat
  second : Nat
deriving DecidableEq

/-- The zero `time.Time`: January 1 of year 1, midnight.  `time.Parse`
returns it alongside an error. -/
def zeroGoTime : GoTime := ⟨1, 1, 1, 0, 0, 0⟩

/-- Value of a two-digit field. -/
def digits2 (a b : Char) : Option Nat :=
  if isDigit a && isDigit b then some ((a.toNat - 48) * 10 + (b.toNat - 48))
  else none

/-- Value of a four-digit field. -/
def digits4 (a b c d : Char) : Option Nat :=
  match digits2 a b, digits2 c d with
  | some h, some l => some (h * 100 + l)
  | _, _ => none

def isLeapYear (y : Nat) : Bool :=
  y % 4 = 0 && (y % 100 ≠ 0 || y % 400 = 0)

/-- Length of a month, as `time.Parse` uses to validate the day. -/
def daysInMonth (y m : Nat) : Nat :=
  if m = 2 then (if isLeapYear y then 29 else 28)
  else if m = 4 || m = 6 || m = 9 || m = 11 then 30
  else 31

/-- Models `time.Parse(logTimeFormat, s)`: the input must match the layout
character for character, and every field must be in range. -/
def parseLogTime (s : String) : Option GoTime :=
  match s.data with
  | [y1, y2, y3, y4, '-', m1, m2, '-', d1, d2, 'T',
     h1, h2, ':', i1, i2, ':', s1, s2, 'Z'] =>
    match digits4 y1 y2 y3 y4, digits2 m1 m2, digits2 d1 d2,
        digits2 h1 h2, digits2 i1 i2, digits2 s1 s2 with
    | some y, some mo, some d, some h, some mi, some se =>
      if 1 ≤ mo ∧ mo ≤ 12 ∧ 1 ≤ d ∧ d ≤ daysInMonth y mo ∧
          h < 24 ∧ mi < 60 ∧ se < 60 then
        some ⟨y, mo, d, h, mi, se⟩
      else none
    | _, _, _, _, _, _ => none
  | _ => none

/-! Encoding side: the exact wire bodies `pushQueue` produces via
`json.Marshal`.  Struct fields are emitted in declaration order; the two
`omitempty` fields of `ctMessage` are dropped when empty, while `sqsMessage`
carries all nine fields. -/

/-- Models `json.Marshal(body)` for a `ctMessage`. -/
def marshalCtMessage (m : ctMessage) : String :=
  String.mk (renderObj
    ([("s3Bucket", renderStr m.S3Bucket), ("s3ObjectKey", renderStrList m.S3ObjectKey)] ++
      (if m.MessageID = "" then [] else [("MessageID", renderStr m.MessageID)]) ++
      (if m.ReceiptHandle = "" then [] else [("ReceiptHandle", renderStr m.ReceiptHandle)])))

/-- Models `json.Marshal(msg)` for an `sqsMessage`. -/
def marshalSqsMessage (m : sqsMessage) : String :=
  String.mk (renderObj
    [("Type", renderStr m.msgType), ("MessageID", renderStr m.MessageID),
     ("TopicArn", renderStr m.TopicArn), ("Message", renderStr m.Message),
     ("Timestamp", renderStr m.Timestamp),
     ("SignatureVersion", renderStr m.SignatureVersion),
     ("Signature", renderStr m.Signature),
     ("SigningCertURL", renderStr m.SigningCertURL),
     ("UnsubscribeURL", renderStr m.UnsubscribeURL)])

/-- The message body `pushQueue` sends for one bucket and key: the domain
payload marshalled, wrapped as the `Message` of an otherwise empty transport
envelope, marshalled again. -/
def pushQueueBody (bucket key : String) : String :=
  marshalSqsMessage { Message := marshalCtMessage { S3Bucket := bucket, S3ObjectKey := [key] } }

/-! The pipeline.  External collaborators — SQS receive/send/delete, S3
get-object, and the libbeat publisher — are oracle functions supplied as
arguments; the calls the code issues against them are recorded as actions. -/

/-- One normalized event handed to the publisher: the `common.MapStr` built
in `publishEvents` (`@timestamp`, the fixed `type`, and the record). -/
structure beatEvent where
  timestamp : GoTime
  eventType : String
  cloudtrail : cloudtrailEvent

/-- One observable call against a collaborator. -/
inductive Action where
  | published (events : List beatEvent)
  | deleteCall (receiptHandle : String)
  | sendCall (body : String)

/-- Raw text of a `json.RawMessage` field; `string(nil)` is empty. -/
def rawText : Option Json → String
  | none => ""
  | some j => String.mk (renderJson j)

/-- The per-record body of the loop in `publishEvents`: parse the event time
(the zero time standing in on failure, which is only logged), move the raw
payloads into their string fields, and build the beat event. -/
def mkBeatEvent (cte : cloudtrailEvent) : beatEvent :=
  let timestamp :=
    match parseLogTime cte.EventTime with
    | some t => t
    | none => zeroGoTime
  let cte2 := { cte with
    RawRequestParameters := rawText cte.RequestParameters,
    RawResponseElements := rawText cte.ResponseElements,
    RequestParameters := none,
    ResponseElements := none }
  { timestamp := timestamp, eventType := "CloudTrail", cloudtrail := cte2 }

/-- Models `publishEvents`: an empty batch returns immediately without a
publisher call; otherwise one synchronous `PublishEvents` call decides
success for the whole batch. -/
def publishEvents (publish : List beatEvent → Bool) (ct : cloudtrailLog) :
    Except String Unit × List Action :=
  if ct.Records.length < 1 then (.ok (), [])
  else
    let events := ct.Records.map mkBeatEvent
    if publish events then (.ok (), [.published events])
    else (.error "Error publishing events", [.published events])

/-- Models `readLogfile`: download `m.S3Bucket / m.S3ObjectKey[0]` and decode
it.  The outer `none` models the Go runtime panic when `m.S3ObjectKey` is
empty and the index expression `m.S3ObjectKey[0]` is out of range. -/
def readLogfile (getObject : String → String → Except String String)
    (m : ctMessage) : Option (Except String cloudtrailLog) :=
  match m.S3ObjectKey with
  | [] => none
  | key :: _ =>
    some (match getObject m.S3Bucket key with
      | .error e => .error e
      | .ok body =>
        match unmarshalCloudtrailLog body with
        | .error e => .error ("Error unmarshaling cloutrail JSON: " ++ e)
        | .ok lf => .ok lf)

/-- One SQS message as returned by `ReceiveMessage` (the dereferenced
`Body`, `MessageId` and `ReceiptHandle` pointers). -/
structure rawSqsMessage where
  body : String
  messageId : String
  receiptHandle : String
deriving DecidableEq

/-- The sentinel payload of a CloudTrail subscription test message. -/
def validationSentinel : String := "CloudTrail validation message."

/-- The message loop of `fetchMessages`: decode the transport envelope, then
  — unless the payload is the validation sentinel, which is deleted (when
purging) and skipped — decode the payload and collect it, stamped with the
envelope's id and the receipt handle.  Either decode failure returns an
error for the whole batch.  The second component traces the `DeleteMessage`
calls issued. -/
def fetchLoop (noPurge : Bool) (deleteRes : String → Except String Unit) :
    List rawSqsMessage → Except String (List ctMessage) × List String
  | [] => (.ok [], [])
  | e :: rest =>
    match unmarshalSqsMessage e.body with
    | .error err =>
      (.error ("SQS message JSON parse error [id: " ++ e.messageId ++ "]: " ++ err), [])
    | .ok tmsg =>
      if tmsg.Message = validationSentinel then
        if noPurge then fetchLoop noPurge deleteRes rest
        else
          match deleteRes e.receiptHandle with
          | .error err =>
            (.error ("Error deleting validation message [id: " ++ tmsg.MessageID ++ "]: " ++ err),
              [e.receiptHandle])
          | .ok _ =>
            let p := fetchLoop noPurge deleteRes rest
            (p.1, e.receiptHandle :: p.2)
      else
        match unmarshalCtMessage tmsg.Message with
        | .error err =>
          (.error ("SQS body JSON parse error [id: " ++ e.messageId ++ "]: " ++ err), [])
        | .ok event =>
          let ev := { event with MessageID := tmsg.MessageID, ReceiptHandle := e.receiptHandle }
          let p := fetchLoop noPurge deleteRes rest
          (p.1.map fun ms => ev :: ms, p.2)

/-- Models `fetchMessages`: a receive error is wrapped and returned, an empty
receive yields the empty batch, and a nonempty receive runs the message
loop. -/
def fetchMessages (noPurge : Bool) (deleteRes : String → Except String Unit)
    (receive : Except String (List rawSqsMessage)) :
    Except String (List ctMessage) × List String :=
  match receive with
  | .error e => (.error ("SQS ReceiveMessage error: " ++ e), [])
  | .ok msgs =>
    if msgs.length = 0 then (.ok [], [])
    else fetchLoop noPurge deleteRes msgs

/-- The body of the drain loop in `runQueue` for one decoded reference:
fetch and parse the object (a failure is logged and the message skipped),
publish (a failure is logged and the message skipped), then — unless
`noPurge` — delete the message by its receipt handle (a delete failure is
only logged).  `none` propagates the `readLogfile` panic. -/
def drainMessage (noPurge : Bool)
    (getObject : String → String → Except String String)
    (publish : List beatEvent → Bool) (m : ctMessage) : Option (List Action) :=
  match readLogfile getObject m with
  | none => none
  | some (.error _) => some []
  | some (.ok lf) =>
    match publishEvents publish lf with
    | (.error _, acts) => some acts
    | (.ok _, acts) =>
      some (acts ++ if noPurge then [] else [.deleteCall m.ReceiptHandle])

/-- The drain loop of `runQueue` over one fetched batch, in order. -/
def drainBatch (noPurge : Bool)
    (getObject : String → String → Except String String)
    (publish : List beatEvent → Bool) : List ctMessage → Option (List Action)
  | [] => some []
  | m :: rest =>
    match drainMessage noPurge getObject publish m with
    | none => none
    | some acts =>
      (drainBatch noPurge getObject publish rest).map fun tr => acts ++ tr

/-- One iteration's worth of external input to `runQueue`: either the done
channel has been closed, or `ReceiveMessage` produced this outcome. -/
inductive queueStep where
  | stopped
  | receive (r : Except String (List rawSqsMessage))

/-- How a run of the loop ended: `finished r` when the function returned
`r`, `running` when the supplied script ended with the loop still polling. -/
inductive runOutcome where
  | finished (r : Except String Unit)
  | running

/-- Models `runQueue` over a script of per-iteration inputs: a fetch error is
logged and breaks the loop (which then returns nil), an empty batch sleeps
and polls again, and a nonempty batch is drained before polling again.
`none` propagates the `readLogfile` panic. -/
def runQueue (noPurge : Bool)
    (getObject : String → String → Except String String)
    (publish : List beatEvent → Bool) (deleteRes : String → Except String Unit) :
    List queueStep → Option (runOutcome × List Action)
  | [] => some (.running, [])
  | .stopped :: _ => some (.finished (.ok ()), [])
  | .receive r :: rest =>
    match fetchMessages noPurge deleteRes r with
    | (.error _, dels) => some (.finished (.ok ()), dels.map Action.deleteCall)
    | (.ok ms, dels) =>
      let acts := dels.map Action.deleteCall
      if ms.length = 0 then
        (runQueue noPurge getObject publish deleteRes rest).map
          fun p => (p.1, acts ++ p.2)
      else
        match drainBatch noPurge getObject publish ms with
        | none => none
        | some dracts =>
          (runQueue noPurge getObject publish deleteRes rest).map
            fun p => (p.1, acts ++ dracts ++ p.2)

/-- Models `pushQueue`: marshal the synthetic reference, wrap and marshal the
envelope, and send it. -/
def pushQueue (send : String → Except String Unit) (bucket key : String) :
    Except String Unit × List Action :=
  (send (pushQueueBody bucket key), [.sendCall (pushQueueBody bucket key)])

/-- Models `strings.HasSuffix`: a length check and a comparison of the
trailing characters. -/
def hasSuffixGo (s sfx : String) : Bool :=
  decide (sfx.data.length ≤ s.data.length) &&
    decide (s.data.drop (s.data.length - sfx.data.length) = sfx.data)

/-- The key loop of `runBackfill`: every listed key ending in `.json.gz` is
pushed onto the queue; the first send failure aborts the whole backfill. -/
def backfillLoop (send : String → Except String Unit) (bucket : String) :
    List String → Except String Unit × List Action
  | [] => (.ok (), [])
  | key :: rest =>
    if hasSuffixGo key ".json.gz" then
      match pushQueue send bucket key with
      | (.error e, acts) => (.error ("Queue push failed: " ++ e), acts)
      | (.ok _, acts) =>
        let p := backfillLoop send bucket rest
        (p.1, acts ++ p.2)
    else backfillLoop send bucket rest

/-- Models `runBackfill`: list the bucket (the prefix only shapes the listing
the S3 oracle returns), then run the key loop; a listing failure is fatal. -/
def runBackfill (send : String → Except String Unit) (bucket : String)
    (listRes : Except String (List String)) : Except String Unit × List Action :=
  match listRes with
  | .error e => (.error ("Failed to list bucket objects: " ++ e), [])
  | .ok keys => backfillLoop send bucket keys

/-! Configuration (`config/config.go` and `New` in `beater/ctbeat.go`). -/

/-- The configuration surface, with `Period` in seconds. -/
structure Config where
  Period : Nat
  SQSURL : String
  AWSRegion : String
  NumQueueFetch : Int
  NoPurge : Bool
deriving DecidableEq

/-- `config.DefaultConfig` verbatim: fields it does not set keep their Go
zero values. -/
def DefaultConfig : Config :=
  { Period := 300, SQSURL := "", AWSRegion := "us-east-1",
    NumQueueFetch := 1, NoPurge := true }

/-- The fields present in the user's configuration file. -/
structure ConfigOverrides where
  Period : Option Nat := none
  SQSURL : Option String := none
  AWSRegion : Option String := none
  NumQueueFetch : Option Int := none
  NoPurge : Option Bool := none

/-- Models the configuration step of `New`: start from `DefaultConfig` and
let `cfg.Unpack` overwrite exactly the fields the file provides. -/
def newBeatConfig (o : ConfigOverrides) : Config :=
  { Period := o.Period.getD DefaultConfig.Period,
    SQSURL := o.SQSURL.getD DefaultConfig.SQSURL,
    AWSRegion := o.AWSRegion.getD DefaultConfig.AWSRegion,
    NumQueueFetch := o.NumQueueFetch.getD DefaultConfig.NumQueueFetch,
    NoPurge := o.NoPurge.getD DefaultConfig.NoPurge }

/-! Round-trip lemmas: text `json.Marshal` emits is decoded back to the value
it came from.  The lemmas follow the shape of the emitted text: string
escapes first, then string literals, then the two object layouts the program
marshals. -/

theorem stringMk_data (s : String) : String.mk s.data = s := rfl

theorem skipWs_cons {c : Char} (l : List Char) (h : isWs c = false) :
    skipWs (c :: l) = c :: l := by
  simp [skipWs, h]

theorem hexVal_hexDigitLower (n : Nat) (h : n < 16) :
    hexVal (hexDigitLower n) = some n := by
  interval_cases n <;> decide

theorem hex4_double_zero (n : Nat) (h : n < 32) :
    hex4 '0' '0' (hexDigitLower (n / 16)) (hexDigitLower (n % 16)) = some n := by
  have h1 : n / 16 < 16 := by omega
  have h2 : n % 16 < 16 := by omega
  have e0 : hexVal '0' = some 0 := by decide
  simp only [hex4, e0, hexVal_hexDigitLower _ h1, hexVal_hexDigitLower _ h2]
  congr 1
  omega

theorem parseStringBody_escape (s rest : List Char) :
    parseStringBody none (escape s ++ '"' :: rest) = some (s, rest) := by
  induction s with
  | nil =>
    simp only [escape, List.nil_append]
    rw [parseStringBody.eq_def]
    simp
  | cons c t ih =>
    rw [escape, List.append_assoc]
    by_cases h1 : c = '"'
    · subst h1
      simp [escapeChar, parseStringBody, unescapeSimple, ih]
    by_cases h2 : c = '\\'
    · subst h2
      simp [escapeChar, parseStringBody, unescapeSimple, ih]
    by_cases h3 : c = '\n'
    · subst h3
      simp [escapeChar, parseStringBody, unescapeSimple, ih]
    by_cases h4 : c = '\x0d'
    · subst h4
      simp [escapeChar, parseStringBody, unescapeSimple, ih]
    by_cases h5 : c = '\t'
    · subst h5
      simp [escapeChar, parseStringBody, unescapeSimple, ih]
    by_cases h6 : c.toNat < 0x20
    · have hs : isSurrogate c.toNat = false := by
        simp [isSurrogate]; omega
      simp [escapeChar, h1, h2, h3, h4, h5, h6, parseStringBody,
        hex4_double_zero c.toNat (by omega), hs, Char.ofNat_toNat, ih]
    by_cases h7 : c = '<'
    · subst h7
      simp [escapeChar, parseStringBody, hex4, hexVal, isSurrogate, ih]
    by_cases h8 : c = '>'
    · subst h8
      simp [escapeChar, parseStringBody, hex4, hexVal, isSurrogate, ih]
    by_cases h9 : c = '&'
    · subst h9
      simp [escapeChar, parseStringBody, hex4, hexVal, isSurrogate, ih]
    by_cases h10 : c.toNat = 0x2028
    · have hc : c = Char.ofNat 0x2028 := by
        rw [← h10, Char.ofNat_toNat]
      subst hc
      simp [escapeChar, parseStringBody, hex4, hexVal, isSurrogate, ih]
    by_cases h11 : c.toNat = 0x2029
    · have hc : c = Char.ofNat 0x2029 := by
        rw [← h11, Char.ofNat_toNat]
      subst hc
      simp [escapeChar, parseStringBody, hex4, hexVal, isSurrogate, ih]
    · simp only [escapeChar, h1, h2, h3, h4, h5, h6, h7, h8, h9, h10, h11,
        if_false, ite_false, List.cons_append, List.nil_append]
      rw [parseStringBody.eq_def]
      simp [h1, h2, h6, ih]

theorem parseCore_qstr (fuel : Nat) (s : String) (rest : List Char) :
    parseCore (fuel + 1) .value ('"' :: (escape s.data ++ '"' :: rest)) =
      some (.str s, rest) := by
  rw [parseCore]
  rw [skipWs_cons _ (by decide)]
  simp [parseStringBody_escape, stringMk_data]

theorem parseCore_qarr1 (fuel : Nat) (s : String) (rest : List Char) :
    parseCore (fuel + 3) .value ('[' :: '"' :: (escape s.data ++ '"' :: ']' :: rest)) =
      some (.arr [.str s], rest) := by
  have hv := parseCore_qstr fuel s (']' :: rest)
  have step : parseCore (fuel + 3) .value ('[' :: '"' :: (escape s.data ++ '"' :: ']' :: rest)) =
      parseCore (fuel + 2) .arrayElems ('"' :: (escape s.data ++ '"' :: ']' :: rest)) := by
    rw [parseCore]
    rw [skipWs_cons _ (by decide)]
    simp [skipWs_cons _ (by decide : isWs '"' = false)]
  rw [step, parseCore, hv]
  simp [skipWs_cons _ (by decide : isWs ']' = false)]

theorem parseCore_qstrField (fuel : Nat) (k s : String) (tail : List Char)
    (fs : List (String × Json)) (r : List Char)
    (h : parseCore (fuel + 1) .objFields tail = some (.obj fs, r)) :
    parseCore (fuel + 2) .objFields
        ('"' :: (escape k.data ++ '"' :: ':' :: '"' :: (escape s.data ++ '"' :: ',' :: tail))) =
      some (.obj ((k, Json.str s) :: fs), r) := by
  rw [parseCore]
  simp [skipWs_cons _ (by decide : isWs '"' = false),
    skipWs_cons _ (by decide : isWs ':' = false),
    skipWs_cons _ (by decide : isWs ',' = false),
    parseStringBody_escape, parseCore_qstr fuel s (',' :: tail), h, stringMk_data]

theorem parseCore_qstrFieldLast (fuel : Nat) (k s : String) (rest : List Char) :
    parseCore (fuel + 2) .objFields
        ('"' :: (escape k.data ++ '"' :: ':' :: '"' :: (escape s.data ++ '"' :: '}' :: rest))) =
      some (.obj [(k, Json.str s)], rest) := by
  rw [parseCore]
  simp [skipWs_cons _ (by decide : isWs '"' = false),
    skipWs_cons _ (by decide : isWs ':' = false),
    skipWs_cons _ (by decide : isWs '}' = false),
    parseStringBody_escape, parseCore_qstr fuel s ('}' :: rest), stringMk_data]

theorem parseCore_qarrFieldLast (fuel : Nat) (k s : String) (rest : List Char) :
    parseCore (fuel + 4) .objFields
        ('"' :: (escape k.data ++ '"' :: ':' :: '[' :: '"' ::
          (escape s.data ++ '"' :: ']' :: '}' :: rest))) =
      some (.obj [(k, Json.arr [.str s])], rest) := by
  rw [parseCore]
  simp [skipWs_cons _ (by decide : isWs '"' = false),
    skipWs_cons _ (by decide : isWs ':' = false),
    skipWs_cons _ (by decide : isWs '}' = false),
    parseStringBody_escape, parseCore_qarr1 fuel s ('}' :: rest), stringMk_data]

theorem parseCore_lbrace (fuel : Nat) (r : List Char) :
    parseCore (fuel + 1) .value ('{' :: '"' :: r) =
      parseCore fuel .objFields ('"' :: r) := by
  rw [parseCore]
  rw [skipWs_cons _ (by decide)]
  simp [skipWs_cons _ (by decide : isWs '"' = false)]

/-- The character sequence of the payload body `pushQueue` marshals, in the
right-nested form the parser lemmas consume. -/
theorem ctPayload_chars (b k : String) (rest : List Char) :
    (marshalCtMessage { S3Bucket := b, S3ObjectKey := [k] }).data ++ rest =
      '{' :: '"' :: (escape "s3Bucket".data ++ '"' :: ':' :: '"' ::
        (escape b.data ++ '"' :: ',' :: '"' ::
          (escape "s3ObjectKey".data ++ '"' :: ':' :: '[' :: '"' ::
            (escape k.data ++ '"' :: ']' :: '}' :: rest)))) := by
  simp [marshalCtMessage, renderObj, renderFields, renderStr, renderStrList,
    renderStrElems]

theorem parseCore_ctPayload (fuel : Nat) (b k : String) (rest : List Char) :
    parseCore (fuel + 6) .value
        ((marshalCtMessage { S3Bucket := b, S3ObjectKey := [k] }).data ++ rest) =
      some (.obj [("s3Bucket", .str b), ("s3ObjectKey", .arr [.str k])], rest) := by
  rw [ctPayload_chars]
  have h2 : parseCore (fuel + 4) .objFields
      ('"' :: (escape "s3ObjectKey".data ++ '"' :: ':' :: '[' :: '"' ::
        (escape k.data ++ '"' :: ']' :: '}' :: rest))) =
      some (.obj [("s3ObjectKey", Json.arr [.str k])], rest) :=
    parseCore_qarrFieldLast fuel "s3ObjectKey" k rest
  have h1 : parseCore (fuel + 5) .objFields
      ('"' :: (escape "s3Bucket".data ++ '"' :: ':' :: '"' ::
        (escape b.data ++ '"' :: ',' :: '"' ::
          (escape "s3ObjectKey".data ++ '"' :: ':' :: '[' :: '"' ::
            (escape k.data ++ '"' :: ']' :: '}' :: rest))))) =
      some (.obj [("s3Bucket", Json.str b), ("s3ObjectKey", Json.arr [.str k])], rest) :=
    parseCore_qstrField (fuel + 3) "s3Bucket" b _ _ rest h2
  have e6 : fuel + 6 = (fuel + 5) + 1 := by omega
  rw [e6, parseCore_lbrace (fuel + 5)]
  exact h1

theorem ctPayload_length (b k : String) :
    5 ≤ (marshalCtMessage { S3Bucket := b, S3ObjectKey := [k] }).data.length := by
  have h := ctPayload_chars b k []
  rw [List.append_nil] at h
  rw [h]
  simp
  omega

theorem JsonParse_ctPayload (b k : String) :
    Json.parse (marshalCtMessage { S3Bucket := b, S3ObjectKey := [k] }) =
      .ok (.obj [("s3Bucket", .str b), ("s3ObjectKey", .arr [.str k])]) := by
  have hlen := ctPayload_length b k
  obtain ⟨g, hg⟩ :
      ∃ g, (marshalCtMessage { S3Bucket := b, S3ObjectKey := [k] }).data.length + 1 = g + 6 :=
    ⟨(marshalCtMessage { S3Bucket := b, S3ObjectKey := [k] }).data.length - 5, by omega⟩
  have hv := parseCore_ctPayload g b k []
  rw [List.append_nil] at hv
  unfold Json.parse
  rw [hg, hv]
  simp [skipWs]

theorem unmarshalCtMessage_push (b k : String) :
    unmarshalCtMessage (marshalCtMessage { S3Bucket := b, S3ObjectKey := [k] }) =
      .ok { S3Bucket := b, S3ObjectKey := [k] } := by
  unfold unmarshalCtMessage unmarshalStruct
  rw [JsonParse_ctPayload]
  simp [setCtField, jsonToStringField, jsonToStringList, jsonToStringElem,
    List.mapM, List.mapM.loop, Except.map, Except.bind, bind, pure, Except.pure,
    (by decide : eqFold "s3Bucket" "s3Bucket" = true),
    (by decide : eqFold "s3ObjectKey" "s3Bucket" = false),
    (by decide : eqFold "s3ObjectKey" "s3ObjectKey" = true)]

/-- The character sequence of a marshalled transport envelope, in the
right-nested form the parser lemmas consume. -/
theorem envelope_chars (m : sqsMessage) (rest : List Char) :
    (marshalSqsMessage m).data ++ rest =
      '{' :: '"' :: (escape "Type".data ++ '"' :: ':' :: '"' :: (escape m.msgType.data ++ '"' :: ',' :: '"' :: (escape "MessageID".data ++ '"' :: ':' :: '"' :: (escape m.MessageID.data ++ '"' :: ',' :: '"' :: (escape "TopicArn".data ++ '"' :: ':' :: '"' :: (escape m.TopicArn.data ++ '"' :: ',' :: '"' :: (escape "Message".data ++ '"' :: ':' :: '"' :: (escape m.Message.data ++ '"' :: ',' :: '"' :: (escape "Timestamp".data ++ '"' :: ':' :: '"' :: (escape m.Timestamp.data ++ '"' :: ',' :: '"' :: (escape "SignatureVersion".data ++ '"' :: ':' :: '"' :: (escape m.SignatureVersion.data ++ '"' :: ',' :: '"' :: (escape "Signature".data ++ '"' :: ':' :: '"' :: (escape m.Signature.data ++ '"' :: ',' :: '"' :: (escape "SigningCertURL".data ++ '"' :: ':' :: '"' :: (escape m.SigningCertURL.data ++ '"' :: ',' :: '"' :: (escape "UnsubscribeURL".data ++ '"' :: ':' :: '"' :: (escape m.UnsubscribeURL.data ++ '"' :: '}' :: rest)))))))))))))))))) := by
  simp [marshalSqsMessage, renderObj, renderFields, renderStr]

theorem parseCore_envelope (fuel : Nat) (m : sqsMessage) (rest : List Char) :
    parseCore (fuel + 11) .value ((marshalSqsMessage m).data ++ rest) =
      some (.obj [("Type", Json.str m.msgType), ("MessageID", Json.str m.MessageID), ("TopicArn", Json.str m.TopicArn), ("Message", Json.str m.Message), ("Timestamp", Json.str m.Timestamp), ("SignatureVersion", Json.str m.SignatureVersion), ("Signature", Json.str m.Signature), ("SigningCertURL", Json.str m.SigningCertURL), ("UnsubscribeURL", Json.str m.UnsubscribeURL)], rest) := by
  rw [envelope_chars]
  have h9 : parseCore (fuel + 2) .objFields
      ('"' :: (escape "UnsubscribeURL".data ++ '"' :: ':' :: '"' :: (escape m.UnsubscribeURL.data ++ '"' :: '}' :: rest))) =
      some (.obj [("UnsubscribeURL", Json.str m.UnsubscribeURL)], rest) :=
    parseCore_qstrFieldLast fuel "UnsubscribeURL" m.UnsubscribeURL rest
  have h8 : parseCore (fuel + 3) .objFields
      ('"' :: (escape "SigningCertURL".data ++ '"' :: ':' :: '"' :: (escape m.SigningCertURL.data ++ '"' :: ',' :: '"' :: (escape "UnsubscribeURL".data ++ '"' :: ':' :: '"' :: (escape m.UnsubscribeURL.data ++ '"' :: '}' :: rest))))) =
      some (.obj [("SigningCertURL", Json.str m.SigningCertURL), ("UnsubscribeURL", Json.str m.UnsubscribeURL)], rest) :=
    parseCore_qstrField (fuel + 1) "SigningCertURL" m.SigningCertURL _ _ rest h9
  have h7 : parseCore (fuel + 4) .objFields
      ('"' :: (escape "Signature".data ++ '"' :: ':' :: '"' :: (escape m.Signature.data ++ '"' :: ',' :: '"' :: (escape "SigningCertURL".data ++ '"' :: ':' :: '"' :: (escape m.SigningCertURL.data ++ '"' :: ',' :: '"' :: (escape "UnsubscribeURL".data ++ '"' :: ':' :: '"' :: (escape m.UnsubscribeURL.data ++ '"' :: '}' :: rest))))))) =
      some (.obj [("Signature", Json.str m.Signature), ("SigningCertURL", Json.str m.SigningCertURL), ("UnsubscribeURL", Json.str m.UnsubscribeURL)], rest) :=
    parseCore_qstrField (fuel + 2) "Signature" m.Signature _ _ rest h8
  have h6 : parseCore (fuel + 5) .objFields
      ('"' :: (escape "SignatureVersion".data ++ '"' :: ':' :: '"' :: (escape m.SignatureVersion.data ++ '"' :: ',' :: '"' :: (escape "Signature".data ++ '"' :: ':' :: '"' :: (escape m.Signature.data ++ '"' :: ',' :: '"' :: (escape "SigningCertURL".data ++ '"' :: ':' :: '"' :: (escape m.SigningCertURL.data ++ '"' :: ',' :: '"' :: (escape "UnsubscribeURL".data ++ '"' :: ':' :: '"' :: (escape m.UnsubscribeURL.data ++ '"' :: '}' :: rest))))))))) =
      some (.obj [("SignatureVersion", Json.str m.SignatureVersion), ("Signature", Json.str m.Signature), ("SigningCertURL", Json.str m.SigningCertURL), ("UnsubscribeURL", Json.str m.UnsubscribeURL)], rest) :=
    parseCore_qstrField (fuel + 3) "SignatureVersion" m.SignatureVersion _ _ rest h7
  have h5 : parseCore (fuel + 6) .objFields
      ('"' :: (escape "Timestamp".data ++ '"' :: ':' :: '"' :: (escape m.Timestamp.data ++ '"' :: ',' :: '"' :: (escape "SignatureVersion".data ++ '"' :: ':' :: '"' :: (escape m.SignatureVersion.data ++ '"' :: ',' :: '"' :: (escape "Signature".data ++ '"' :: ':' :: '"' :: (escape m.Signature.data ++ '"' :: ',' :: '"' :: (escape "SigningCertURL".data ++ '"' :: ':' :: '"' :: (escape m.SigningCertURL.data ++ '"' :: ',' :: '"' :: (escape "UnsubscribeURL".data ++ '"' :: ':' :: '"' :: (escape m.UnsubscribeURL.data ++ '"' :: '}' :: rest))))))))))) =
      some (.obj [("Timestamp", Json.str m.Timestamp), ("SignatureVersion", Json.str m.SignatureVersion), ("Signature", Json.str m.Signature), ("SigningCertURL", Json.str m.SigningCertURL), ("UnsubscribeURL", Json.str m.UnsubscribeURL)], rest) :=
    parseCore_qstrField (fuel + 4) "Timestamp" m.Timestamp _ _ rest h6
  have h4 : parseCore (fuel + 7) .objFields
      ('"' :: (escape "Message".data ++ '"' :: ':' :: '"' :: (escape m.Message.data ++ '"' :: ',' :: '"' :: (escape "Timestamp".data ++ '"' :: ':' :: '"' :: (escape m.Timestamp.data ++ '"' :: ',' :: '"' :: (escape "SignatureVersion".data ++ '"' :: ':' :: '"' :: (escape m.SignatureVersion.data ++ '"' :: ',' :: '"' :: (escape "Signature".data ++ '"' :: ':' :: '"' :: (escape m.Signature.data ++ '"' :: ',' :: '"' :: (escape "SigningCertURL".data ++ '"' :: ':' :: '"' :: (escape m.SigningCertURL.data ++ '"' :: ',' :: '"' :: (escape "UnsubscribeURL".data ++ '"' :: ':' :: '"' :: (escape m.UnsubscribeURL.data ++ '"' :: '}' :: rest))))))))))))) =
      some (.obj [("Message", Json.str m.Message), ("Timestamp", Json.str m.Timestamp), ("SignatureVersion", Json.str m.SignatureVersion), ("Signature", Json.str m.Signature), ("SigningCertURL", Json.str m.SigningCertURL), ("UnsubscribeURL", Json.str m.UnsubscribeURL)], rest) :=
    parseCore_qstrField (fuel + 5) "Message" m.Message _ _ rest h5
  have h3 : parseCore (fuel + 8) .objFields
      ('"' :: (escape "TopicArn".data ++ '"' :: ':' :: '"' :: (escape m.TopicArn.data ++ '"' :: ',' :: '"' :: (escape "Message".data ++ '"' :: ':' :: '"' :: (escape m.Message.data ++ '"' :: ',' :: '"' :: (escape "Timestamp".data ++ '"' :: ':' :: '"' :: (escape m.Timestamp.data ++ '"' :: ',' :: '"' :: (escape "SignatureVersion".data ++ '"' :: ':' :: '"' :: (escape m.SignatureVersion.data ++ '"' :: ',' :: '"' :: (escape "Signature".data ++ '"' :: ':' :: '"' :: (escape m.Signature.data ++ '"' :: ',' :: '"' :: (escape "SigningCertURL".data ++ '"' :: ':' :: '"' :: (escape m.SigningCertURL.data ++ '"' :: ',' :: '"' :: (escape "UnsubscribeURL".data ++ '"' :: ':' :: '"' :: (escape m.UnsubscribeURL.data ++ '"' :: '}' :: rest))))))))))))))) =
      some (.obj [("TopicArn", Json.str m.TopicArn), ("Message", Json.str m.Message), ("Timestamp", Json.str m.Timestamp), ("SignatureVersion", Json.str m.SignatureVersion), ("Signature", Json.str m.Signature), ("SigningCertURL", Json.str m.SigningCertURL), ("UnsubscribeURL", Json.str m.UnsubscribeURL)], rest) :=
    parseCore_qstrField (fuel + 6) "TopicArn" m.TopicArn _ _ rest h4
  have h2 : parseCore (fuel + 9) .objFields
      ('"' :: (escape "MessageID".data ++ '"' :: ':' :: '"' :: (escape m.MessageID.data ++ '"' :: ',' :: '"' :: (escape "TopicArn".data ++ '"' :: ':' :: '"' :: (escape m.TopicArn.data ++ '"' :: ',' :: '"' :: (escape "Message".data ++ '"' :: ':' :: '"' :: (escape m.Message.data ++ '"' :: ',' :: '"' :: (escape "Timestamp".data ++ '"' :: ':' :: '"' :: (escape m.Timestamp.data ++ '"' :: ',' :: '"' :: (escape "SignatureVersion".data ++ '"' :: ':' :: '"' :: (escape m.SignatureVersion.data ++ '"' :: ',' :: '"' :: (escape "Signature".data ++ '"' :: ':' :: '"' :: (escape m.Signature.data ++ '"' :: ',' :: '"' :: (escape "SigningCertURL".data ++ '"' :: ':' :: '"' :: (escape m.SigningCertURL.data ++ '"' :: ',' :: '"' :: (escape "UnsubscribeURL".data ++ '"' :: ':' :: '"' :: (escape m.UnsubscribeURL.data ++ '"' :: '}' :: rest))))))))))))))))) =
      some (.obj [("MessageID", Json.str m.MessageID), ("TopicArn", Json.str m.TopicArn), ("Message", Json.str m.Message), ("Timestamp", Json.str m.Timestamp), ("SignatureVersion", Json.str m.SignatureVersion), ("Signature", Json.str m.Signature), ("SigningCertURL", Json.str m.SigningCertURL), ("UnsubscribeURL", Json.str m.UnsubscribeURL)], rest) :=
    parseCore_qstrField (fuel + 7) "MessageID" m.MessageID _ _ rest h3
  have h1 : parseCore (fuel + 10) .objFields
      ('"' :: (escape "Type".data ++ '"' :: ':' :: '"' :: (escape m.msgType.data ++ '"' :: ',' :: '"' :: (escape "MessageID".data ++ '"' :: ':' :: '"' :: (escape m.MessageID.data ++ '"' :: ',' :: '"' :: (escape "TopicArn".data ++ '"' :: ':' :: '"' :: (escape m.TopicArn.data ++ '"' :: ',' :: '"' :: (escape "Message".data ++ '"' :: ':' :: '"' :: (escape m.Message.data ++ '"' :: ',' :: '"' :: (escape "Timestamp".data ++ '"' :: ':' :: '"' :: (escape m.Timestamp.data ++ '"' :: ',' :: '"' :: (escape "SignatureVersion".data ++ '"' :: ':' :: '"' :: (escape m.SignatureVersion.data ++ '"' :: ',' :: '"' :: (escape "Signature".data ++ '"' :: ':' :: '"' :: (escape m.Signature.data ++ '"' :: ',' :: '"' :: (escape "SigningCertURL".data ++ '"' :: ':' :: '"' :: (escape m.SigningCertURL.data ++ '"' :: ',' :: '"' :: (escape "UnsubscribeURL".data ++ '"' :: ':' :: '"' :: (escape m.UnsubscribeURL.data ++ '"' :: '}' :: rest))))))))))))))))))) =
      some (.obj [("Type", Json.str m.msgType), ("MessageID", Json.str m.MessageID), ("TopicArn", Json.str m.TopicArn), ("Message", Json.str m.Message), ("Timestamp", Json.str m.Timestamp), ("SignatureVersion", Json.str m.SignatureVersion), ("Signature", Json.str m.Signature), ("SigningCertURL", Json.str m.SigningCertURL), ("UnsubscribeURL", Json.str m.UnsubscribeURL)], rest) :=
    parseCore_qstrField (fuel + 8) "Type" m.msgType _ _ rest h2
  have e11 : fuel + 11 = (fuel + 10) + 1 := by omega
  rw [e11, parseCore_lbrace (fuel + 10)]
  exact h1

theorem envelope_length (m : sqsMessage) :
    10 ≤ (marshalSqsMessage m).data.length := by
  have h := envelope_chars m []
  rw [List.append_nil] at h
  rw [h]
  simp
  omega

theorem JsonParse_envelope (m : sqsMessage) :
    Json.parse (marshalSqsMessage m) =
      .ok (.obj [("Type", Json.str m.msgType), ("MessageID", Json.str m.MessageID), ("TopicArn", Json.str m.TopicArn), ("Message", Json.str m.Message), ("Timestamp", Json.str m.Timestamp), ("SignatureVersion", Json.str m.SignatureVersion), ("Signature", Json.str m.Signature), ("SigningCertURL", Json.str m.SigningCertURL), ("UnsubscribeURL", Json.str m.UnsubscribeURL)]) := by
  have hlen := envelope_length m
  obtain ⟨g, hg⟩ :
      ∃ g, (marshalSqsMessage m).data.length + 1 = g + 11 :=
    ⟨(marshalSqsMessage m).data.length - 10, by omega⟩
  have hv := parseCore_envelope g m []
  rw [List.append_nil] at hv
  unfold Json.parse
  rw [hg, hv]
  simp [skipWs]

theorem unmarshalSqsMessage_marshal (m : sqsMessage) :
    unmarshalSqsMessage (marshalSqsMessage m) = .ok m := by
  unfold unmarshalSqsMessage unmarshalStruct
  rw [JsonParse_envelope]
  simp only [List.foldlM_cons, List.foldlM_nil]
  simp [setSqsField, jsonToStringField, Except.map, Except.bind, bind, pure, Except.pure,
    (by decide : eqFold "Type" "Type" = true),
    (by decide : eqFold "MessageID" "Type" = false),
    (by decide : eqFold "MessageID" "MessageID" = true),
    (by decide : eqFold "TopicArn" "Type" = false),
    (by decide : eqFold "TopicArn" "MessageID" = false),
    (by decide : eqFold "TopicArn" "TopicArn" = true),
    (by decide : eqFold "Message" "Type" = false),
    (by decide : eqFold "Message" "MessageID" = false),
    (by decide : eqFold "Message" "TopicArn" = false),
    (by decide : eqFold "Message" "Message" = true),
    (by decide : eqFold "Timestamp" "Type" = false),
    (by decide : eqFold "Timestamp" "MessageID" = false),
    (by decide : eqFold "Timestamp" "TopicArn" = false),
    (by decide : eqFold "Timestamp" "Message" = false),
    (by decide : eqFold "Timestamp" "Timestamp" = true),
    (by decide : eqFold "SignatureVersion" "Type" = false),
    (by decide : eqFold "SignatureVersion" "MessageID" = false),
    (by decide : eqFold "SignatureVersion" "TopicArn" = false),
    (by decide : eqFold "SignatureVersion" "Message" = false),
    (by decide : eqFold "SignatureVersion" "Timestamp" = false),
    (by decide : eqFold "SignatureVersion" "SignatureVersion" = true),
    (by decide : eqFold "Signature" "Type" = false),
    (by decide : eqFold "Signature" "MessageID" = false),
    (by decide : eqFold "Signature" "TopicArn" = false),
    (by decide : eqFold "Signature" "Message" = false),
    (by decide : eqFold "Signature" "Timestamp" = false),
    (by decide : eqFold "Signature" "SignatureVersion" = false),
    (by decide : eqFold "Signature" "Signature" = true),
    (by decide : eqFold "SigningCertURL" "Type" = false),
    (by decide : eqFold "SigningCertURL" "MessageID" = false),
    (by decide : eqFold "SigningCertURL" "TopicArn" = false),
    (by decide : eqFold "SigningCertURL" "Message" = false),
    (by decide : eqFold "SigningCertURL" "Timestamp" = false),
    (by decide : eqFold "SigningCertURL" "SignatureVersion" = false),
    (by decide : eqFold "SigningCertURL" "Signature" = false),
    (by decide : eqFold "SigningCertURL" "SigningCertURL" = true),
    (by decide : eqFold "UnsubscribeURL" "Type" = false),
    (by decide : eqFold "UnsubscribeURL" "MessageID" = false),
    (by decide : eqFold "UnsubscribeURL" "TopicArn" = false),
    (by decide : eqFold "UnsubscribeURL" "Message" = false),
    (by decide : eqFold "UnsubscribeURL" "Timestamp" = false),
    (by decide : eqFold "UnsubscribeURL" "SignatureVersion" = false),
    (by decide : eqFold "UnsubscribeURL" "Signature" = false),
    (by decide : eqFold "UnsubscribeURL" "SigningCertURL" = false),
    (by decide : eqFold "UnsubscribeURL" "UnsubscribeURL" = true)]

/-! Helpers for stating and settling the claims. -/

/-- Whether a trace contains any `DeleteMessage` call. -/
def hasDeleteCall (l : List Action) : Bool :=
  l.any fun a =>
    match a with
    | .deleteCall _ => true
    | _ => false

theorem marshalCtMessage_headChar (m : ctMessage) :
    (marshalCtMessage m).data.head? = some '{' := rfl

/-- A marshalled payload always opens with a brace, so it is never the
validation sentinel. -/
theorem marshalCtMessage_ne_sentinel (m : ctMessage) :
    ¬ marshalCtMessage m = validationSentinel := by
  intro h
  have h2 := congrArg (fun s => s.data.head?) h
  simp only [] at h2
  rw [marshalCtMessage_headChar] at h2
  have h3 : validationSentinel.data.head? = some 'C' := rfl
  rw [h3] at h2
  exact absurd h2 (by decide)

/-- One step of the fetch loop on a message that decodes to an actionable
reference: the reference, stamped with the envelope id and receipt handle, is
prepended to whatever the rest of the batch produces. -/
theorem fetchLoop_decodes (noPurge : Bool) (dr : String → Except String Unit)
    (e : rawSqsMessage) (rest : List rawSqsMessage) (tmsg : sqsMessage)
    (ev : ctMessage) (h1 : unmarshalSqsMessage e.body = .ok tmsg)
    (h2 : ¬ tmsg.Message = validationSentinel)
    (h3 : unmarshalCtMessage tmsg.Message = .ok ev) :
    fetchLoop noPurge dr (e :: rest) =
      ((fetchLoop noPurge dr rest).1.map
          (fun ms => { ev with MessageID := tmsg.MessageID, ReceiptHandle := e.receiptHandle } :: ms),
        (fetchLoop noPurge dr rest).2) := by
  rw [fetchLoop, h1]
  simp [h2, h3]

/-- One step of the fetch loop on a sentinel message under purge-enabled
configuration with a successful delete: the message is deleted and skipped. -/
theorem fetchLoop_sentinel (dr : String → Except String Unit)
    (e : rawSqsMessage) (rest : List rawSqsMessage) (tmsg : sqsMessage)
    (h1 : unmarshalSqsMessage e.body = .ok tmsg)
    (h2 : tmsg.Message = validationSentinel)
    (h3 : dr e.receiptHandle = .ok ()) :
    fetchLoop false dr (e :: rest) =
      ((fetchLoop false dr rest).1,
        e.receiptHandle :: (fetchLoop false dr rest).2) := by
  rw [fetchLoop, h1]
  simp [h2, h3]

/-- The publish trace never contains a delete call. -/
theorem publishEvents_no_delete (publish : List beatEvent → Bool)
    (ct : cloudtrailLog) : hasDeleteCall (publishEvents publish ct).2 = false := by
  by_cases h : ct.Records.length < 1
  · simp [publishEvents, h, hasDeleteCall]
  · by_cases hp : publish (ct.Records.map mkBeatEvent) = true <;>
      simp [publishEvents, h, hp, hasDeleteCall]

/-! The claims. -/

/-- C2 (amended): when the queue receive operation fails, `runQueue` logs the
error and breaks out of the loop regardless of any further scripted input —
it does not retry — but the error is swallowed rather than propagated: the
loop returns nil (success) to its caller. -/
theorem C2_receive_error_aborts_but_swallowed (noPurge : Bool)
    (gO : String → String → Except String String) (pub : List beatEvent → Bool)
    (dr : String → Except String Unit) (e : String) (rest : List queueStep) :
    runQueue noPurge gO pub dr (.receive (.error e) :: rest) =
      some (.finished (.ok ()), []) := by
  rw [runQueue]
  simp [fetchMessages]

set_option maxRecDepth 100000 in
/-- C2 counterexample: on a receive error the loop stops (a later successful
receive is never drained: the trace is empty), but the run finishes with
`Except.ok`, not with a propagated fatal error — refuting the claim that the
receive error reaches the process owner as a failure. -/
theorem C2_counterexample :
    runQueue false (fun _ _ => .ok "") (fun _ => true) (fun _ => .ok ())
      [.receive (.error "connection refused"),
       .receive (.ok [⟨pushQueueBody "b1" "k1.json.gz", "id1", "rh1"⟩])] =
      some (.finished (.ok ()), []) := rfl

/-- C3: a received message whose envelope payload is the validation sentinel
is acknowledged and skipped when purging is enabled: the fetch loop returns
no error for it, issues one delete call with its receipt handle, and the
returned actionable references are exactly those of the rest of the batch. -/
theorem C3_sentinel_acknowledge_and_skip (dr : String → Except String Unit)
    (e : rawSqsMessage) (rest : List rawSqsMessage) (tmsg : sqsMessage)
    (ms : List ctMessage) (dels : List String)
    (h1 : unmarshalSqsMessage e.body = .ok tmsg)
    (h2 : tmsg.Message = validationSentinel)
    (h3 : dr e.receiptHandle = .ok ())
    (h4 : fetchLoop false dr rest = (.ok ms, dels)) :
    fetchLoop false dr (e :: rest) = (.ok ms, e.receiptHandle :: dels) := by
  rw [fetchLoop_sentinel dr e rest tmsg h1 h2 h3, h4]

set_option maxRecDepth 100000 in
theorem C3_witness :
    fetchLoop false (fun _ => Except.ok ())
      [⟨"\x7b\"Message\":\"CloudTrail validation message.\"\x7d", "idv", "rhv"⟩] =
      (.ok [], ["rhv"]) :=
  C3_sentinel_acknowledge_and_skip (fun _ => Except.ok ())
    ⟨"\x7b\"Message\":\"CloudTrail validation message.\"\x7d", "idv", "rhv"⟩ []
    { Message := validationSentinel } [] [] rfl rfl rfl rfl

set_option maxRecDepth 100000 in
/-- C8: publishing an empty log batch succeeds and is a no-op — no publisher
call is recorded — and an object body decoding to zero records is a valid,
successful fetch-and-parse result. -/
theorem C8_empty_batch_noop (publish : List beatEvent → Bool) :
    publishEvents publish { Records := [] } = (.ok (), []) ∧
    unmarshalCloudtrailLog "\x7b\"Records\":[]\x7d" = .ok { Records := [] } :=
  ⟨rfl, rfl⟩

set_option maxRecDepth 100000 in
/-- C10: the decoder returns a reference whose payload had no `s3ObjectKey`
as actionable (empty key sequence), and `readLogfile` has no value on it —
its `m.S3ObjectKey[0]` index access is out of range, a Go runtime panic — so
the fetch is not total over decoder outputs. -/
theorem C10_empty_key_fetch_not_total :
    (fetchLoop false (fun _ => Except.ok ())
      [⟨"\x7b\"Message\":\"\x7b\\\"s3Bucket\\\":\\\"b1\\\"\x7d\"\x7d", "id1", "rh1"⟩]).1 =
      .ok [{ S3Bucket := "b1", S3ObjectKey := [], MessageID := "", ReceiptHandle := "rh1" }] ∧
    readLogfile (fun _ _ => .ok "")
      { S3Bucket := "b1", S3ObjectKey := [], MessageID := "", ReceiptHandle := "rh1" } = none :=
  ⟨rfl, rfl⟩

set_option maxRecDepth 100000 in
/-- C4 counterexample: with the purge toggle left unset, `DefaultConfig`
sets `NoPurge := true`, and a fully successful fetch-and-publish (the read
succeeds and the publish returns success) issues no delete call — the drain
trace is empty — refuting the claim that the default is purge enabled. -/
theorem C4_counterexample :
    DefaultConfig.NoPurge = true ∧
    (newBeatConfig {}).NoPurge = true ∧
    readLogfile (fun _ _ => .ok "\x7b\"Records\":[]\x7d")
      { S3Bucket := "b1", S3ObjectKey := ["k1.json.gz"], MessageID := "id1",
        ReceiptHandle := "rh1" } = some (.ok { Records := [] }) ∧
    drainMessage (newBeatConfig {}).NoPurge (fun _ _ => .ok "\x7b\"Records\":[]\x7d")
      (fun _ => true)
      { S3Bucket := "b1", S3ObjectKey := ["k1.json.gz"], MessageID := "id1",
        ReceiptHandle := "rh1" } = some [] :=
  ⟨rfl, rfl, rfl, rfl⟩

/-- C4 (amended): when the configuration omits the purge toggle, the default
taken from `DefaultConfig` is `NoPurge = true` — purge disabled — so after a
fully successful fetch-and-publish no delete call is issued. -/
theorem C4_default_purge_disabled (o : ConfigOverrides) (hnone : o.NoPurge = none)
    (gO : String → String → Except String String) (pub : List beatEvent → Bool)
    (m : ctMessage) (lf : cloudtrailLog)
    (h1 : readLogfile gO m = some (.ok lf))
    (h2 : (publishEvents pub lf).1 = .ok ()) :
    (newBeatConfig o).NoPurge = true ∧
    (drainMessage (newBeatConfig o).NoPurge gO pub m).map hasDeleteCall = some false := by
  have hnp : (newBeatConfig o).NoPurge = true := by
    simp [newBeatConfig, hnone, DefaultConfig]
  refine ⟨hnp, ?_⟩
  rw [hnp]
  have hnd := publishEvents_no_delete pub lf
  rcases hpe : publishEvents pub lf with ⟨r, acts⟩
  rw [hpe] at h2 hnd
  simp only at h2
  subst h2
  simp only at hnd
  unfold drainMessage
  rw [h1]
  simp [hpe, hnd]

set_option maxRecDepth 100000 in
theorem C4_witness :
    ({} : ConfigOverrides).NoPurge = none ∧
    ((newBeatConfig {}).NoPurge = true ∧
      (drainMessage (newBeatConfig {}).NoPurge (fun _ _ => .ok "\x7b\"Records\":[]\x7d")
        (fun _ => true)
        { S3Bucket := "b1", S3ObjectKey := ["k1.json.gz"], MessageID := "id1",
          ReceiptHandle := "rh1" }).map hasDeleteCall = some false) :=
  ⟨rfl, C4_default_purge_disabled {} rfl (fun _ _ => .ok "\x7b\"Records\":[]\x7d")
    (fun _ => true)
    { S3Bucket := "b1", S3ObjectKey := ["k1.json.gz"], MessageID := "id1",
      ReceiptHandle := "rh1" } { Records := [] } rfl rfl⟩

/-- C5: with every send succeeding, a backfill run sends exactly one queue
message per listed key with the `.json.gz` ending — its body the marshalled
synthetic reference of that bucket and the single-element key sequence — and
keys without the ending trigger no send. -/
theorem C5_backfill_sends_matching_keys (send : String → Except String Unit)
    (bucket : String) (keys : List String)
    (h : ∀ body, send body = .ok ()) :
    runBackfill send bucket (.ok keys) =
      (.ok (), (keys.filter (fun k => hasSuffixGo k ".json.gz")).map
        (fun k => .sendCall (pushQueueBody bucket k))) := by
  suffices core : backfillLoop send bucket keys =
      (.ok (), (keys.filter (fun k => hasSuffixGo k ".json.gz")).map
        (fun k => .sendCall (pushQueueBody bucket k))) by
    simp [runBackfill, core]
  induction keys with
  | nil => simp [backfillLoop]
  | cons k rest ih =>
    by_cases hk : hasSuffixGo k ".json.gz" = true
    · simp [backfillLoop, hk, pushQueue, h, ih, List.filter_cons]
    · simp [backfillLoop, hk, ih, List.filter_cons]

set_option maxRecDepth 100000 in
theorem C5_witness :
    runBackfill (fun _ => Except.ok ()) "b1" (.ok ["a.json.gz", "b.txt"]) =
      (.ok (), [.sendCall (pushQueueBody "b1" "a.json.gz")]) := by
  rw [C5_backfill_sends_matching_keys (fun _ => Except.ok ()) "b1"
    ["a.json.gz", "b.txt"] (fun _ => rfl)]
  rfl

/-- C6: when the publish call for one drained reference fails, its trace is
exactly the publish attempt — no delete call, so the message stays in the
queue for redelivery — and draining the batch still continues with the
remaining references. -/
theorem C6_publish_failure_no_delete (noPurge : Bool)
    (gO : String → String → Except String String) (pub : List beatEvent → Bool)
    (m : ctMessage) (rest : List ctMessage) (lf : cloudtrailLog)
    (h1 : readLogfile gO m = some (.ok lf))
    (h2 : lf.Records ≠ [])
    (h3 : pub (lf.Records.map mkBeatEvent) = false) :
    drainMessage noPurge gO pub m = some [.published (lf.Records.map mkBeatEvent)] ∧
    hasDeleteCall [Action.published (lf.Records.map mkBeatEvent)] = false ∧
    drainBatch noPurge gO pub (m :: rest) =
      (drainBatch noPurge gO pub rest).map
        (fun tr => Action.published (lf.Records.map mkBeatEvent) :: tr) := by
  have hlen : ¬ lf.Records.length < 1 := by
    have := List.length_pos.mpr h2
    omega
  have hdm : drainMessage noPurge gO pub m =
      some [.published (lf.Records.map mkBeatEvent)] := by
    unfold drainMessage
    rw [h1]
    simp [publishEvents, hlen, h3]
  refine ⟨hdm, rfl, ?_⟩
  rw [drainBatch, hdm]
  rfl

set_option maxRecDepth 100000 in
theorem C6_witness :
    drainMessage false (fun _ _ => .ok "\x7b\"Records\":[\x7b\"eventTime\":\"bad\"\x7d]\x7d")
      (fun _ => false)
      { S3Bucket := "b1", S3ObjectKey := ["k1.json.gz"], MessageID := "id1",
        ReceiptHandle := "rh1" } =
      some [.published (({ Records := [{ EventTime := "bad" }] } :
        cloudtrailLog).Records.map mkBeatEvent)] ∧
    hasDeleteCall [Action.published (({ Records := [{ EventTime := "bad" }] } :
      cloudtrailLog).Records.map mkBeatEvent)] = false ∧
    drainBatch false (fun _ _ => .ok "\x7b\"Records\":[\x7b\"eventTime\":\"bad\"\x7d]\x7d")
      (fun _ => false)
      [{ S3Bucket := "b1", S3ObjectKey := ["k1.json.gz"], MessageID := "id1",
         ReceiptHandle := "rh1" }] =
      (drainBatch false (fun _ _ => .ok "\x7b\"Records\":[\x7b\"eventTime\":\"bad\"\x7d]\x7d")
        (fun _ => false) []).map
        (fun tr => Action.published (({ Records := [{ EventTime := "bad" }] } :
          cloudtrailLog).Records.map mkBeatEvent) :: tr) :=
  C6_publish_failure_no_delete false
    (fun _ _ => .ok "\x7b\"Records\":[\x7b\"eventTime\":\"bad\"\x7d]\x7d")
    (fun _ => false)
    { S3Bucket := "b1", S3ObjectKey := ["k1.json.gz"], MessageID := "id1",
      ReceiptHandle := "rh1" } []
    { Records := [{ EventTime := "bad" }] } rfl (List.cons_ne_nil _ _) rfl

/-- C7: a record whose event time fails to parse is not dropped — the batch
handed to the publisher keeps one event per record, this record's event
among them — and the event carries the zero sentinel timestamp. -/
theorem C7_bad_time_not_dropped (pub : List beatEvent → Bool)
    (ct : cloudtrailLog) (r : cloudtrailEvent)
    (h1 : r ∈ ct.Records) (h2 : parseLogTime r.EventTime = none) :
    (mkBeatEvent r).timestamp = zeroGoTime ∧
    mkBeatEvent r ∈ ct.Records.map mkBeatEvent ∧
    (ct.Records.map mkBeatEvent).length = ct.Records.length ∧
    (publishEvents pub ct).2 = [.published (ct.Records.map mkBeatEvent)] := by
  have hlen : ¬ ct.Records.length < 1 := by
    have := List.length_pos.mpr (List.ne_nil_of_mem h1)
    omega
  refine ⟨?_, List.mem_map_of_mem _ h1, List.length_map _ _, ?_⟩
  · simp [mkBeatEvent, h2]
  · by_cases hp : pub (ct.Records.map mkBeatEvent) = true <;>
      simp [publishEvents, hlen, hp]

set_option maxRecDepth 100000 in
theorem C7_witness :
    (mkBeatEvent { EventTime := "not-a-time" }).timestamp = zeroGoTime ∧
    mkBeatEvent { EventTime := "not-a-time" } ∈
      (({ Records := [{ EventTime := "not-a-time" }] } : cloudtrailLog)).Records.map mkBeatEvent ∧
    ((({ Records := [{ EventTime := "not-a-time" }] } : cloudtrailLog)).Records.map
      mkBeatEvent).length =
      (({ Records := [{ EventTime := "not-a-time" }] } : cloudtrailLog)).Records.length ∧
    (publishEvents (fun _ => true)
      { Records := [{ EventTime := "not-a-time" }] }).2 =
      [.published ((({ Records := [{ EventTime := "not-a-time" }] } :
        cloudtrailLog)).Records.map mkBeatEvent)] :=
  C7_bad_time_not_dropped (fun _ => true)
    { Records := [{ EventTime := "not-a-time" }] } { EventTime := "not-a-time" }
    (List.mem_singleton.mpr rfl) rfl

/-- C9: round trip of the envelope encoding.  First, a queue message built by
`pushQueue` for any bucket and key decodes back to a reference carrying that
bucket and exactly that single key (with the enqueued envelope's empty
message id and the delivery's receipt handle).  Second, any received message
whose envelope and payload decode — the payload not being the sentinel —
yields a reference whose bucket and key sequence are the payload's fields and
whose message id is the envelope's. -/
theorem C9_envelope_roundtrip (noPurge : Bool) (dr : String → Except String Unit)
    (b k mid rh : String) (e : rawSqsMessage) (rest : List rawSqsMessage)
    (tmsg : sqsMessage) (ev : ctMessage)
    (h1 : unmarshalSqsMessage e.body = .ok tmsg)
    (h2 : ¬ tmsg.Message = validationSentinel)
    (h3 : unmarshalCtMessage tmsg.Message = .ok ev) :
    fetchLoop noPurge dr [{ body := pushQueueBody b k, messageId := mid, receiptHandle := rh }] =
      (.ok [{ S3Bucket := b, S3ObjectKey := [k], MessageID := "", ReceiptHandle := rh }], []) ∧
    fetchLoop noPurge dr (e :: rest) =
      ((fetchLoop noPurge dr rest).1.map
          (fun ms => { ev with MessageID := tmsg.MessageID, ReceiptHandle := e.receiptHandle } :: ms),
        (fetchLoop noPurge dr rest).2) := by
  constructor
  · rw [fetchLoop_decodes noPurge dr
      { body := pushQueueBody b k, messageId := mid, receiptHandle := rh } []
      { Message := marshalCtMessage { S3Bucket := b, S3ObjectKey := [k] } }
      { S3Bucket := b, S3ObjectKey := [k] }
      (unmarshalSqsMessage_marshal
        { Message := marshalCtMessage { S3Bucket := b, S3ObjectKey := [k] } })
      (marshalCtMessage_ne_sentinel { S3Bucket := b, S3ObjectKey := [k] })
      (unmarshalCtMessage_push b k)]
    simp [fetchLoop, Except.map]
  · exact fetchLoop_decodes noPurge dr e rest tmsg ev h1 h2 h3

set_option maxRecDepth 400000 in
theorem C9_witness :
    (fetchLoop false (fun _ => Except.ok ())
      [{ body := pushQueueBody "b1" "k1.json.gz", messageId := "m1", receiptHandle := "r1" }] =
      (.ok [{ S3Bucket := "b1", S3ObjectKey := ["k1.json.gz"], MessageID := "",
              ReceiptHandle := "r1" }], [])) ∧
    fetchLoop false (fun _ => Except.ok ())
      [⟨"\x7b\"MessageId\":\"mid9\",\"Message\":\"\x7b\\\"s3Bucket\\\":\\\"b9\\\",\\\"s3ObjectKey\\\":[\\\"k9\\\"]\x7d\"\x7d", "i9", "r9"⟩] =
      (.ok [{ S3Bucket := "b9", S3ObjectKey := ["k9"], MessageID := "mid9",
              ReceiptHandle := "r9" }], []) := by
  have h := C9_envelope_roundtrip false (fun _ => Except.ok ()) "b1" "k1.json.gz" "m1" "r1"
    ⟨"\x7b\"MessageId\":\"mid9\",\"Message\":\"\x7b\\\"s3Bucket\\\":\\\"b9\\\",\\\"s3ObjectKey\\\":[\\\"k9\\\"]\x7d\"\x7d", "i9", "r9"⟩ []
    { MessageID := "mid9",
      Message := "\x7b\"s3Bucket\":\"b9\",\"s3ObjectKey\":[\"k9\"]\x7d" }
    { S3Bucket := "b9", S3ObjectKey := ["k9"] } rfl (by decide) rfl
  exact ⟨h.1, by rw [h.2]; rfl⟩

/-- C1 (amended): a decode failure — of the transport envelope or of the
payload — on any message of a fetched batch aborts the whole fetch:
`fetchMessages` returns an error with an empty delete trace, none of the
batch's messages (earlier or later) is returned for processing, and the run
loop then logs the error and exits returning nil, draining and publishing
nothing, without crashing the process. -/
theorem C1_decode_failure_aborts_batch (noPurge : Bool)
    (dr : String → Except String Unit) (pre : List rawSqsMessage)
    (bad : rawSqsMessage) (rest : List rawSqsMessage)
    (hpre : ∀ e ∈ pre, ∃ tmsg ev, unmarshalSqsMessage e.body = .ok tmsg ∧
      ¬ tmsg.Message = validationSentinel ∧ unmarshalCtMessage tmsg.Message = .ok ev)
    (hbad : (∃ err, unmarshalSqsMessage bad.body = .error err) ∨
      (∃ tmsg, unmarshalSqsMessage bad.body = .ok tmsg ∧
        ¬ tmsg.Message = validationSentinel ∧
        ∃ err, unmarshalCtMessage tmsg.Message = .error err)) :
    (∃ msg, fetchLoop noPurge dr (pre ++ bad :: rest) = (.error msg, [])) ∧
    ∀ (gO : String → String → Except String String) (pub : List beatEvent → Bool)
      (script : List queueStep),
      runQueue noPurge gO pub dr (.receive (.ok (pre ++ bad :: rest)) :: script) =
        some (.finished (.ok ()), []) := by
  have hbase : ∃ msg, fetchLoop noPurge dr (bad :: rest) = (.error msg, []) := by
    rcases hbad with ⟨err, herr⟩ | ⟨tmsg, hb1, hb2, err, herr⟩
    · exact ⟨"SQS message JSON parse error [id: " ++ bad.messageId ++ "]: " ++ err,
        by rw [fetchLoop, herr]⟩
    · exact ⟨"SQS body JSON parse error [id: " ++ bad.messageId ++ "]: " ++ err,
        by rw [fetchLoop, hb1]; simp [hb2, herr]⟩
  obtain ⟨msg, hmsg⟩ := hbase
  have hall : fetchLoop noPurge dr (pre ++ bad :: rest) = (.error msg, []) := by
    clear hbad
    induction pre with
    | nil => simpa using hmsg
    | cons e pre ih =>
      obtain ⟨tmsg, ev, h1, h2, h3⟩ := hpre e (List.mem_cons_self e pre)
      rw [List.cons_append,
        fetchLoop_decodes noPurge dr e (pre ++ bad :: rest) tmsg ev h1 h2 h3,
        ih (fun x hx => hpre x (List.mem_cons_of_mem _ hx))]
      rfl
  refine ⟨⟨msg, hall⟩, ?_⟩
  intro gO pub script
  have hlen : ¬ (pre ++ bad :: rest).length = 0 := by simp
  rw [runQueue]
  simp [fetchMessages, hlen, hall]

set_option maxRecDepth 400000 in
/-- C1 counterexample: in a batch of two messages where the second fails
envelope decoding, the whole fetch errors: the first (well-formed) message is
not processed or published — the run trace is empty — refuting the claim that
the other N-1 messages are still published; the loop then stops normally. -/
theorem C1_counterexample :
    (fetchLoop false (fun _ => Except.ok ())
      [⟨pushQueueBody "b1" "k1.json.gz", "id1", "rh1"⟩, ⟨"not json", "id2", "rh2"⟩]).1 =
      .error "SQS message JSON parse error [id: id2]: invalid JSON input" ∧
    runQueue false (fun _ _ => .ok "\x7b\"Records\":[]\x7d") (fun _ => true)
      (fun _ => .ok ())
      [.receive (.ok [⟨pushQueueBody "b1" "k1.json.gz", "id1", "rh1"⟩,
        ⟨"not json", "id2", "rh2"⟩])] =
      some (.finished (.ok ()), []) :=
  ⟨rfl, rfl⟩

set_option maxRecDepth 400000 in
theorem C1_witness :
    (∃ msg, fetchLoop false (fun _ => Except.ok ())
      ([⟨pushQueueBody "b1" "k1.json.gz", "id1", "rh1"⟩] ++
        ⟨"not json", "id2", "rh2"⟩ :: []) = (.error msg, [])) ∧
    runQueue false (fun _ _ => .ok "") (fun _ => true) (fun _ => .ok ())
      (.receive (.ok ([⟨pushQueueBody "b1" "k1.json.gz", "id1", "rh1"⟩] ++
        ⟨"not json", "id2", "rh2"⟩ :: [])) :: []) =
      some (.finished (.ok ()), []) := by
  have h := C1_decode_failure_aborts_batch false (fun _ => Except.ok ())
    [⟨pushQueueBody "b1" "k1.json.gz", "id1", "rh1"⟩] ⟨"not json", "id2", "rh2"⟩ []
    (by
      intro e he
      simp only [List.mem_singleton] at he
      subst he
      exact ⟨{ Message := marshalCtMessage { S3Bucket := "b1", S3ObjectKey := ["k1.json.gz"] } },
        { S3Bucket := "b1", S3ObjectKey := ["k1.json.gz"] },
        unmarshalSqsMessage_marshal _, marshalCtMessage_ne_sentinel _,
        unmarshalCtMessage_push "b1" "k1.json.gz"⟩)
    (Or.inl ⟨"invalid JSON input", rfl⟩)
  exact ⟨h.1, h.2 (fun _ _ => .ok "") (fun _ => true) []⟩

end Cloudtrailbeat
